import Mathlib

/-!
Verification of the Quibble transcript-buffering and classification logic.

The development shallowly embeds the two pieces of the program that the
properties below are about:

* `QuizEngine.processText` (src/services/QuizEngine.ts, OpenAI variant):
  the classifier boundary.  The HTTP layer is modelled by a `Transport`
  oracle giving the outcome of the n-th outbound request (`none` models a
  rejected `fetch`, i.e. a thrown network error that the surrounding
  `try`/`catch` converts to a `null` result).  The function returns the
  parsed result together with the list of outbound requests it issued.

* `handleTranscription` (src/index.ts, accumulated-transcript variant):
  the per-session transcript accumulator and display policy.  The
  `QuizEngine` call is passed in as an oracle `engine`; display updates
  and classification calls are returned as explicit event lists.

Strings are modelled as Lean `String`s; character-level operations are
written over `List Char`.  JavaScript whitespace and lower-casing are
modelled for the ASCII range, which covers every string the program
manipulates in the properties below.
-/

/-- JavaScript whitespace, restricted to the ASCII characters that occur
in the program's strings (space, tab, line feed, carriage return). -/
def isWS (c : Char) : Bool :=
  c = ' ' ∨ c = '\t' ∨ c = '\n' ∨ c = '\r'

/-- ASCII lower-casing of one character, as `String.prototype.toLowerCase`
acts on the ASCII range. -/
def lowerChar (c : Char) : Char :=
  if 65 ≤ c.toNat ∧ c.toNat ≤ 90 then Char.ofNat (c.toNat + 32) else c

/-- `trim` on a character list: drop whitespace from both ends. -/
def trimChars (cs : List Char) : List Char :=
  ((cs.dropWhile isWS).reverse.dropWhile isWS).reverse

/-- `String.prototype.trim`. -/
def sTrim (s : String) : String := ⟨trimChars s.data⟩

/-- `String.prototype.toLowerCase` (ASCII range). -/
def sToLower (s : String) : String := ⟨s.data.map lowerChar⟩

/-- `haystack.includes(needle)`: substring containment. -/
def containsSub : List Char → List Char → Bool
  | [], needle => needle.isEmpty
  | c :: t, needle => needle.isPrefixOf (c :: t) || containsSub t needle

/-- Split a list at the first occurrence of `pat`, returning the part
before it and the part after it (the occurrence itself removed);
`none` when `pat` does not occur. -/
def splitAtSub (pat : List Char) : List Char → Option (List Char × List Char)
  | [] => if pat.isEmpty then some ([], []) else none
  | c :: cs =>
    if pat.isPrefixOf (c :: cs) then some ([], (c :: cs).drop pat.length)
    else
      match splitAtSub pat cs with
      | some (b, a) => some (c :: b, a)
      | none => none

/-- The three-backtick fence delimiter. -/
def fenceChars : List Char := [Char.ofNat 96, Char.ofNat 96, Char.ofNat 96]

/-- One pass of `replace(/\x60\x60\x60[\s\S]*?\x60\x60\x60/g, m => m.replace(..., '').trim())`:
each fenced block is replaced by its interior, trimmed.  `fuel` bounds the
recursion; every step removes at least the six delimiter characters, so
`fuel = cs.length` always suffices. -/
def stripFencesAux : Nat → List Char → List Char
  | 0, cs => cs
  | fuel + 1, cs =>
    match splitAtSub fenceChars cs with
    | none => cs
    | some (before, rest) =>
      match splitAtSub fenceChars rest with
      | none => cs
      | some (mid, after) => before ++ trimChars mid ++ stripFencesAux fuel after

def stripFences (cs : List Char) : List Char := stripFencesAux cs.length cs

/-- The characters stripped by `replace(/^["'\x60]+|["'\x60]+$/g, '')`:
double quote, single quote, backtick. -/
def isQuoteChar (c : Char) : Bool :=
  c = Char.ofNat 34 ∨ c = Char.ofNat 39 ∨ c = Char.ofNat 96

/-- Strip a leading and a trailing run of quote characters. -/
def stripEdgeQuotes (cs : List Char) : List Char :=
  ((cs.dropWhile isQuoteChar).reverse.dropWhile isQuoteChar).reverse

/-- The cleaning chain applied to the raw model reply
(QuizEngine.ts lines 146-150): trim, strip fenced blocks, strip wrapping
quotes/backticks, trim. -/
def cleanReply (raw : String) : String :=
  sTrim ⟨stripEdgeQuotes (stripFences (sTrim raw).data)⟩

/-- `src/data/questions.ts` `Question` shape. -/
structure Question where
  id : String
  category : String
  text : String
  answer : String
  keywords : List String
deriving DecidableEq

/-- `MatchResult` (QuizEngine.ts lines 3-6). -/
structure MatchResult where
  question : Question
  confidence : Nat
deriving DecidableEq

/-- The `Question`/`MatchResult` synthesis of QuizEngine.ts lines 170-182. -/
def mkMatchResult (text answer : String) : MatchResult :=
  { question :=
      { id := "openai-generated"
        category := "General Knowledge"
        text := text
        answer := answer
        keywords := [] }
    confidence := 10 }

/-- The suffix of the input after each line feed, in leftmost order. -/
def afterNewlines : List Char → List (List Char)
  | [] => []
  | c :: rest => (if c = '\n' then [rest] else []) ++ afterNewlines rest

/-- The suffixes of `cs` that begin at a line start: the whole list, and
the remainder after each line feed.  These are the candidate anchor
positions of `^` under the `m` regex flag, in leftmost order. -/
def lineSuffixes (cs : List Char) : List (List Char) := cs :: afterNewlines cs

/-- Behaviour of the regex tail `\s*(.+)\s*$` (flags `im`) on the text
`rest` that follows a matched `ANSWER:` tag, composed with the `.trim()`
the code applies to the capture (QuizEngine.ts line 161).  `\s*` greedily
consumes whitespace (crossing line feeds), `(.+)` then requires at least
one non-line-feed character and runs to the end of that line, and `\s*$`
closes at the line end; the code trims the capture.  When `rest` is all
whitespace the engine backtracks and still matches any non-line-feed
whitespace character, with a capture that trims to the empty string. -/
def entityAfterTag (rest : List Char) : Option (List Char) :=
  let w := rest.dropWhile isWS
  if w.isEmpty then
    if rest.any (fun c => ¬ (c = '\n')) then some [] else none
  else
    some (trimChars (w.takeWhile (fun c => ¬ (c = '\n'))))

/-- The match of `/^ANSWER:\s*(.+)\s*$/im` against the cleaned reply,
returning the trimmed capture group: the first line start whose text
begins (case-insensitively) with `ANSWER:` and whose remainder admits the
regex tail. -/
def findAnswerEntity (cs : List Char) : Option (List Char) :=
  go (lineSuffixes cs)
where go : List (List Char) → Option (List Char)
  | [] => none
  | l :: ls =>
    if ("answer:".data).isPrefixOf (l.map lowerChar) then
      match entityAfterTag (l.drop 7) with
      | some e => some e
      | none => go ls
    else go ls

/-- Parsing of the cleaned reply `c` (QuizEngine.ts lines 153-182): an
empty reply or one containing the substring `NO MATCH` yields `null`;
otherwise an `ANSWER:` line yields its trimmed capture as the answer; a
tagless reply longer than 50 characters yields `null`, and a tagless
reply of at most 50 characters becomes the answer itself. -/
def parseContent (c : String) (text : String) : Option MatchResult :=
  if c = "" ∨ containsSub c.data ("NO MATCH".data) then none
  else
    match findAnswerEntity c.data with
    | some e => some (mkMatchResult text (String.mk e))
    | none =>
      if 50 < c.data.length then none
      else some (mkMatchResult text c)

/-- One HTTP response, as the code observes it: `ok`/`status` from the
`Response`, `body` the text read for error diagnosis, `jsonOk` whether
`response.json()` succeeds, and `content` the optional
`choices[0].message.content` field of the parsed body. -/
structure HttpResp where
  ok : Bool
  status : Nat
  body : String
  jsonOk : Bool
  content : Option String
deriving DecidableEq

/-- The outcome of the n-th outbound request: `none` models a rejected
`fetch` (network error thrown into the surrounding `try`). -/
def Transport := Nat → Option HttpResp

/-- The engine configuration read from the environment in the constructor
(QuizEngine.ts lines 37-46). -/
structure Config where
  apiKey : String
  model : String
deriving DecidableEq

/-- One outbound chat-completions request, recording the parameters the
retry logic varies (QuizEngine.ts lines 13-35). -/
structure ChatRequest where
  model : String
  tokenParam : String
deriving DecidableEq

/-- The initial request of a `processText` call. -/
def firstRequest (cfg : Config) : ChatRequest :=
  ⟨cfg.model, "max_completion_tokens"⟩

/-- The token-parameter chosen for the token-parameter retry
(QuizEngine.ts lines 115-116). -/
def retryTokenParam (r : HttpResp) : String :=
  if containsSub (sToLower r.body).data ("use 'max_completion_tokens'".data)
  then "max_completion_tokens" else "max_tokens"

/-- Condition for the token-parameter retry (QuizEngine.ts lines 110-114). -/
def tokenParamRetryCond (r : HttpResp) : Bool :=
  r.status == 400
    && (containsSub (sToLower r.body).data ("unsupported parameter".data)
        || containsSub (sToLower r.body).data ("unsupported_parameter".data))
    && (containsSub (sToLower r.body).data ("max_tokens".data)
        || containsSub (sToLower r.body).data ("max_completion_tokens".data))

/-- Condition under which the error looks like a model problem
(QuizEngine.ts lines 102-106). -/
def looksLikeModelIssue (r : HttpResp) : Bool :=
  r.status == 400 || r.status == 404
    || containsSub (sToLower r.body).data ("model".data)
    || containsSub (sToLower r.body).data ("not found".data)

/-- Handling of a successful (`ok`) response (QuizEngine.ts lines
144-182): parse the body, clean the content, parse the reply.  A body
that fails to parse throws inside the `try` and surfaces as `null`. -/
def handleBody (r : HttpResp) (text : String) : Option MatchResult :=
  if r.jsonOk then
    match r.content with
    | some raw => parseContent (cleanReply raw) text
    | none => none
  else none

/-- The single retry (QuizEngine.ts lines 115-134): issue the second
request; a thrown fetch or a non-`ok` retry response yields `null`. -/
def retryStep (tr : Transport) (text : String) (first second : ChatRequest) :
    Option MatchResult × List ChatRequest :=
  match tr 1 with
  | none => (none, [first, second])
  | some r1 =>
    if r1.ok then (handleBody r1 text, [first, second])
    else (none, [first, second])

/-- `QuizEngine.processText` (QuizEngine.ts lines 53-188), with the HTTP
layer abstracted into `tr`.  Returns the parsed result and the list of
outbound requests issued. -/
def processText (cfg : Config) (tr : Transport) (text : String) :
    Option MatchResult × List ChatRequest :=
  if text = "" ∨ (sTrim text).data.length < 10 then (none, [])
  else if cfg.apiKey = "" then (none, [])
  else
    match tr 0 with
    | none => (none, [firstRequest cfg])
    | some r0 =>
      if r0.ok then (handleBody r0 text, [firstRequest cfg])
      else if tokenParamRetryCond r0 then
        retryStep tr text (firstRequest cfg) ⟨cfg.model, retryTokenParam r0⟩
      else if looksLikeModelIssue r0 && !(cfg.model == "gpt-5.2") then
        retryStep tr text (firstRequest cfg) ⟨"gpt-5.2", "max_completion_tokens"⟩
      else (none, [firstRequest cfg])

/-- Per-session mutable state of the transcription handler
(src/index.ts lines 73-81): the last shown answer, the processed-length
checkpoint and the accumulated transcript. -/
structure SessionState where
  lastAnswerId : Option String
  lastProcessedLength : Nat
  accumulatedTranscript : String
deriving DecidableEq

/-- The state of a freshly created session. -/
def initState : SessionState := ⟨none, 0, ""⟩

/-- A display update issued through `session.layouts`. -/
inductive DisplayEvent
  | textWall (s : String)
  | doubleTextWall (top bottom : String)
deriving DecidableEq

/-- Everything one `handleTranscription` invocation produces: the new
session state, the display updates issued, and the texts passed to
`quizEngine.processText`. -/
structure HandleResult where
  state : SessionState
  displays : List DisplayEvent
  engineCalls : List String
deriving DecidableEq

/-- Is position `i` a sentence boundary of `cs`, i.e. a match position of
`/[.?!](?:\s|$)/`: a terminator followed by whitespace or the end of the
string. -/
def boundaryAt (cs : List Char) (i : Nat) : Bool :=
  match cs.get? i with
  | some c =>
    (c = '.' ∨ c = '?' ∨ c = '!')
      && (match cs.get? (i + 1) with
          | some d => isWS d
          | none => true)
  | none => false

/-- `currentSentenceEnd` (src/index.ts lines 138-147): one past the last
sentence-boundary match, or `0` when there is none.  The global `exec`
loop visits match positions left to right and keeps the last; since a
match consumes the terminator and at most one whitespace character, and
no match can start inside a consumed span, the last match position is
simply the greatest boundary position. -/
def currentSentenceEnd (cs : List Char) : Nat :=
  match ((List.range cs.length).filter (fun i => boundaryAt cs i)).getLast? with
  | some i => i + 1
  | none => 0

/-- Truncation used for the top display line (src/index.ts lines 124 and
189): keep the last 50 characters, prefixed with an ellipsis, when the
text is longer than 50 characters. -/
def truncTail (s : String) : String :=
  if 50 < s.data.length then "..." ++ String.mk (s.data.drop (s.data.length - 50)) else s

/-- The end-of-clue cue phrase checked (lower-cased) at src/index.ts
line 159. -/
def endCue : List Char := "for 10 points".data

/-- The early return of `handleTranscription` when `shouldProcess` is
false (src/index.ts line 170): the live display was already updated, and
only the commit block's assignments to the session state remain. -/
def skipResult (st : SessionState) (liveDisplays : List DisplayEvent)
    (acc1 : String) (lpl1 : Nat) : HandleResult :=
  { state := { st with accumulatedTranscript := acc1, lastProcessedLength := lpl1 }
    displays := liveDisplays
    engineCalls := [] }

/-- The tail of `handleTranscription` past line 170: move the checkpoint
to `lpl2`, dispatch `fullText` to the engine, and on a match display the
question/answer pair and record the answer (src/index.ts lines 173-203;
the de-duplication comparison at lines 183 and 197-199 is commented out
in the source, so every match updates the display). -/
def dispatchResult (st : SessionState) (liveDisplays : List DisplayEvent)
    (acc1 : String) (lpl2 : Nat) (engine : String → Option MatchResult)
    (fullText : String) : HandleResult :=
  match engine fullText with
  | some mr =>
    { state :=
        { lastAnswerId := some mr.question.answer
          lastProcessedLength := lpl2
          accumulatedTranscript := acc1 }
      displays := liveDisplays
        ++ [DisplayEvent.doubleTextWall (truncTail fullText) ("Answer: " ++ mr.question.answer)]
      engineCalls := [fullText] }
  | none =>
    { state := { st with lastProcessedLength := lpl2, accumulatedTranscript := acc1 }
      displays := liveDisplays
      engineCalls := [fullText] }

/-- `handleTranscription` (src/index.ts lines 102-204, the
accumulated-transcript variant).  `showLive` is the
`show_live_transcription` setting; `engine` is the oracle for
`quizEngine.processText` on the dispatched text.  Mirrors the source
line by line: build `fullText` from the accumulated transcript and the
segment; update the live display; locate the last sentence boundary;
decide `shouldProcess`; on a final non-blank segment commit `fullText`
to the accumulated transcript, clearing it (and, there, the checkpoint)
when the cue phrase occurs; then, when processing, move the checkpoint
and dispatch to the engine, displaying and recording any answer. -/
def handleTranscription (showLive : Bool) (engine : String → Option MatchResult)
    (st : SessionState) (text : String) (isFinal : Bool) : HandleResult :=
  let fullText :=
    if sTrim text ≠ "" then
      (if st.accumulatedTranscript ≠ "" then st.accumulatedTranscript ++ " " ++ text else text)
    else st.accumulatedTranscript
  let liveDisplays :=
    if showLive then
      (match st.lastAnswerId with
       | some ans => [DisplayEvent.doubleTextWall (truncTail fullText) ("Answer: " ++ ans)]
       | none => [DisplayEvent.textWall fullText])
    else []
  let cse := currentSentenceEnd fullText.data
  let shouldProcess := isFinal || decide (st.lastProcessedLength < cse)
  let committed := isFinal && decide (sTrim text ≠ "")
  let resetCue := containsSub (sToLower fullText).data endCue
  let acc1 :=
    if committed then (if resetCue then "" else fullText) else st.accumulatedTranscript
  let lpl1 := if committed && resetCue then 0 else st.lastProcessedLength
  if !shouldProcess then skipResult st liveDisplays acc1 lpl1
  else dispatchResult st liveDisplays acc1 (if isFinal then fullText.data.length else cse)
    engine fullText

/-- Run a list of `(text, isFinal)` transcription events in order,
collecting display updates and engine calls. -/
def runEvents (showLive : Bool) (engine : String → Option MatchResult) :
    SessionState → List (String × Bool) → SessionState × List DisplayEvent × List String
  | st, [] => (st, [], [])
  | st, (t, f) :: rest =>
    let r := handleTranscription showLive engine st t f
    let (st1, ds, cs) := runEvents showLive engine r.state rest
    (st1, r.displays ++ ds, r.engineCalls ++ cs)

/-! ### Concrete fixtures used by witnesses and counterexamples -/

/-- The clue of the end-to-end scenario. -/
def clueText : String := "What is the capital of France?"

/-- A successful response whose parsed body carries `raw` as the model
reply. -/
def okReply (raw : String) : HttpResp := ⟨true, 200, "", true, some raw⟩

/-- A transport whose every request succeeds with reply `raw`. -/
def replyTr (raw : String) : Transport := fun _ => some (okReply raw)

/-- A configuration with a credential present. -/
def cfgK : Config := ⟨"test-key", "gpt-5.2-chat-latest"⟩

/-- An engine oracle that classifies every dispatched text as the answer
`Paris`. -/
def engineParis : String → Option MatchResult := fun _ => some (mkMatchResult "" "Paris")

/-- An engine oracle that never matches. -/
def engineNone : String → Option MatchResult := fun _ => none

/-- A 400 response flagging an unsupported token parameter. -/
def badTokenResp : HttpResp :=
  ⟨false, 400, "Unsupported parameter: 'max_tokens' is not supported", true, none⟩

/-- A transport whose every request fails with `badTokenResp`. -/
def badTokenTr : Transport := fun _ => some badTokenResp

/-- A transport whose every request throws. -/
def failTr : Transport := fun _ => none

/-! ### Helper lemmas -/

/-- Inputs under the 10-character floor short-circuit before any request. -/
theorem processText_of_short (cfg : Config) (tr : Transport) (text : String)
    (h : (sTrim text).data.length < 10) : processText cfg tr text = (none, []) := by
  unfold processText
  rw [if_pos (Or.inr h)]

/-- With the guards passed and an `ok` first response, `processText` is
the body handler on that response, after one request. -/
theorem processText_okFirst (cfg : Config) (tr : Transport) (text : String) (r : HttpResp)
    (hg : ¬(text = "" ∨ (sTrim text).data.length < 10)) (hk : ¬(cfg.apiKey = ""))
    (h0 : tr 0 = some r) (hok : r.ok = true) :
    processText cfg tr text = (handleBody r text, [firstRequest cfg]) := by
  unfold processText
  rw [if_neg hg, if_neg hk, h0]
  simp only [hok, if_true]

/-- A successful retry result comes from an `ok` second response. -/
theorem retryStep_some_ex (tr : Transport) (text : String) (a b : ChatRequest)
    (m : MatchResult) (h : (retryStep tr text a b).1 = some m) :
    ∃ r1, tr 1 = some r1 ∧ r1.ok = true ∧ handleBody r1 text = some m := by
  unfold retryStep at h
  split at h
  · simp at h
  · rename_i r1 h1
    split at h
    · rename_i hok
      exact ⟨r1, h1, hok, by simpa using h⟩
    · simp at h

/-- The retry always issues exactly the two recorded requests. -/
theorem retryStep_snd (tr : Transport) (text : String) (a b : ChatRequest) :
    (retryStep tr text a b).2 = [a, b] := by
  unfold retryStep
  split
  · rfl
  · split <;> rfl

/-- A non-`ok` retry response yields `null`. -/
theorem retryStep_fail (tr : Transport) (text : String) (a b : ChatRequest) (r1 : HttpResp)
    (h1 : tr 1 = some r1) (hok : r1.ok = false) : (retryStep tr text a b).1 = none := by
  unfold retryStep
  rw [h1]
  simp [hok]

/-- Every run of `processText` ends in one of three shapes: rejected by a
guard with no request, resolved by the first request, or resolved by the
single retry — whose second request uses either the alternate
token-parameter name (same model) or the fallback model identifier. -/
theorem processText_cases (cfg : Config) (tr : Transport) (text : String) :
    processText cfg tr text = (none, [])
    ∨ (∃ x, processText cfg tr text = (x, [firstRequest cfg]))
    ∨ (∃ r0, tr 0 = some r0 ∧ r0.ok = false ∧
        (processText cfg tr text
            = retryStep tr text (firstRequest cfg) ⟨cfg.model, retryTokenParam r0⟩
         ∨ processText cfg tr text
            = retryStep tr text (firstRequest cfg) ⟨"gpt-5.2", "max_completion_tokens"⟩)) := by
  unfold processText
  split
  · exact Or.inl rfl
  · split
    · exact Or.inl rfl
    · split
      · exact Or.inr (Or.inl ⟨none, rfl⟩)
      · rename_i r0 h0
        split
        · exact Or.inr (Or.inl ⟨_, rfl⟩)
        · rename_i hok
          have hok' : r0.ok = false := by revert hok; cases r0.ok <;> simp
          split
          · exact Or.inr (Or.inr ⟨r0, h0, hok', Or.inl rfl⟩)
          · split
            · exact Or.inr (Or.inr ⟨r0, h0, hok', Or.inr rfl⟩)
            · exact Or.inr (Or.inl ⟨none, rfl⟩)

/-- A parsed match can only come from a response whose body parsed. -/
theorem handleBody_some_jsonOk (r : HttpResp) (text : String) (m : MatchResult)
    (h : handleBody r text = some m) : r.jsonOk = true := by
  unfold handleBody at h
  split at h
  · assumption
  · simp at h

/-- Every parsed match of the cleaned reply is the synthesized result for
the input text. -/
theorem parseContent_some_shape (c : String) (text : String) (m : MatchResult)
    (h : parseContent c text = some m) : ∃ a, m = mkMatchResult text a := by
  unfold parseContent at h
  split at h
  · simp at h
  · split at h
    · exact ⟨_, by simpa using h.symm⟩
    · split at h
      · simp at h
      · exact ⟨_, by simpa using h.symm⟩

/-- Every parsed match is the synthesized result for the input text. -/
theorem handleBody_some_shape (r : HttpResp) (text : String) (m : MatchResult)
    (h : handleBody r text = some m) : ∃ a, m = mkMatchResult text a := by
  unfold handleBody at h
  split at h
  · split at h
    · exact parseContent_some_shape _ _ _ h
    · simp at h
  · simp at h

/-- Every non-`null` result of `processText` comes from an `ok` response
of one of its at most two requests, through the body handler. -/
theorem processText_some_ex (cfg : Config) (tr : Transport) (text : String) (m : MatchResult)
    (h : (processText cfg tr text).1 = some m) :
    ∃ r, (tr 0 = some r ∨ tr 1 = some r) ∧ r.ok = true ∧ handleBody r text = some m := by
  unfold processText at h
  split at h
  · simp at h
  · split at h
    · simp at h
    · split at h
      · simp at h
      · rename_i r0 h0
        split at h
        · rename_i hok
          exact ⟨r0, Or.inl h0, hok, by simpa using h⟩
        · split at h
          · obtain ⟨r1, h1, hok1, hb⟩ := retryStep_some_ex _ _ _ _ _ h
            exact ⟨r1, Or.inr h1, hok1, hb⟩
          · split at h
            · obtain ⟨r1, h1, hok1, hb⟩ := retryStep_some_ex _ _ _ _ _ h
              exact ⟨r1, Or.inr h1, hok1, hb⟩
            · simp at h

/-- The skip branch leaves the accumulated transcript at the commit
block's value. -/
theorem skipResult_acc (st : SessionState) (l : List DisplayEvent) (a : String) (lp : Nat) :
    (skipResult st l a lp).state.accumulatedTranscript = a := rfl

/-- The dispatch branch leaves the accumulated transcript at the commit
block's value, whatever the engine returns. -/
theorem dispatchResult_acc (st : SessionState) (l : List DisplayEvent) (a : String)
    (lp : Nat) (engine : String → Option MatchResult) (f : String) :
    (dispatchResult st l a lp engine f).state.accumulatedTranscript = a := by
  unfold dispatchResult
  cases engine f <;> rfl

/-! ### Claim theorems -/

set_option maxRecDepth 4000

/-- C1: the session-buffer invariant
`0 ≤ lastProcessedLength ≤ length(accumulatedTranscript)` is violated by
the code on the very scenario the claim highlights: a final segment whose
accumulated text contains "for 10 points" clears the buffer and resets
the checkpoint (src/index.ts lines 159-163), but line 173 then overwrites
`lastProcessedLength` with the full pre-clear length, leaving the offset
at 30 against an empty buffer. -/
theorem quibble_c1_bug :
    (handleTranscription false engineNone initState
        "Name this city, for 10 points." true).state.accumulatedTranscript = ""
    ∧ (handleTranscription false engineNone initState
        "Name this city, for 10 points." true).state.lastProcessedLength = 30
    ∧ ¬((handleTranscription false engineNone initState
          "Name this city, for 10 points." true).state.lastProcessedLength
        ≤ (handleTranscription false engineNone initState
          "Name this city, for 10 points." true).state.accumulatedTranscript.data.length) := by
  decide

/-- C2: two consecutive classifier outcomes carrying the same answer
entity `Paris` produce two display updates, not one: the de-duplication
check is commented out in the source (src/index.ts lines 182-199,
"TEMPORARY DEBUG" in the earlier variant), so every `Answer` outcome
updates the display. -/
theorem quibble_c2_bug :
    (runEvents false engineParis initState [(clueText, true), (clueText, true)]).2.1 =
      [DisplayEvent.doubleTextWall "What is the capital of France?" "Answer: Paris",
       DisplayEvent.doubleTextWall "... capital of France? What is the capital of France?"
         "Answer: Paris"] := by
  decide

/-- C3 counterexample: on the stream
`[("What is the capital of", false), ("France?", true)]` from a fresh
session the single classification call carries `"France?"`, not
`"What is the capital of France?"`: non-final segments are never
committed to the accumulated transcript (src/index.ts lines 153-168), so
the non-final prefix is dropped when the final segment arrives. -/
theorem quibble_c3_counterexample :
    (runEvents false engineNone initState
        [("What is the capital of", false), ("France?", true)]).2.2 = ["France?"]
    ∧ "France?" ≠ "What is the capital of France?" := by
  decide

/-- C3 amended: the stream issues exactly one classification call, whose
text argument is `"France?"` (only final segments are committed, so the
non-final prefix is not joined in); and since that text's trimmed length
is below the 10-character floor, `processText` returns `null` without
issuing any outbound request. -/
theorem quibble_c3_amended :
    (runEvents false engineNone initState
        [("What is the capital of", false), ("France?", true)]).2.2 = ["France?"]
    ∧ ∀ (cfg : Config) (tr : Transport), processText cfg tr "France?" = (none, []) := by
  refine ⟨by decide, fun cfg tr => processText_of_short cfg tr "France?" (by decide)⟩

/-- C4 counterexample: the reply `"no match"` is matched neither
case-insensitively nor anchored: the code checks `includes('NO MATCH')`
case-sensitively (QuizEngine.ts line 153), so the lower-case reply falls
through and is returned as an answer entity instead of yielding `null`;
likewise `"RESET"` is not a recognized form and becomes an answer entity
rather than a `Reset` outcome. -/
theorem quibble_c4_counterexample :
    (processText cfgK (replyTr "no match") clueText).1
        = some (mkMatchResult clueText "no match")
    ∧ (processText cfgK (replyTr "RESET") clueText).1
        = some (mkMatchResult clueText "RESET") := by
  decide

/-- C4 amended: after trimming and stripping fenced/quoted wrapping,
`processText` returns `null` when the cleaned reply is empty or contains
the substring `NO MATCH` (case-sensitively, anywhere, not anchored);
otherwise an `ANSWER:` line matched case-insensitively at a line start
yields its trimmed capture as the entity; with no `ANSWER:` tag, a reply
longer than 50 characters yields `null` and a reply of at most 50
characters becomes the entity itself.  `RESET` and `CHATTER` are not
recognized forms. -/
theorem quibble_c4_amended (cfg : Config) (tr : Transport) (text raw : String) (r : HttpResp)
    (hg : ¬(text = "" ∨ (sTrim text).data.length < 10)) (hk : ¬(cfg.apiKey = ""))
    (h0 : tr 0 = some r) (hok : r.ok = true) (hj : r.jsonOk = true)
    (hc : r.content = some raw) :
    ((cleanReply raw = "" ∨ containsSub (cleanReply raw).data ("NO MATCH".data) = true) →
        (processText cfg tr text).1 = none)
    ∧ (∀ e, ¬(cleanReply raw = "" ∨ containsSub (cleanReply raw).data ("NO MATCH".data) = true) →
        findAnswerEntity (cleanReply raw).data = some e →
        (processText cfg tr text).1 = some (mkMatchResult text (String.mk e)))
    ∧ (¬(cleanReply raw = "" ∨ containsSub (cleanReply raw).data ("NO MATCH".data) = true) →
        findAnswerEntity (cleanReply raw).data = none →
        50 < (cleanReply raw).data.length →
        (processText cfg tr text).1 = none)
    ∧ (¬(cleanReply raw = "" ∨ containsSub (cleanReply raw).data ("NO MATCH".data) = true) →
        findAnswerEntity (cleanReply raw).data = none →
        (cleanReply raw).data.length ≤ 50 →
        (processText cfg tr text).1 = some (mkMatchResult text (cleanReply raw))) := by
  have hpt : (processText cfg tr text).1 = parseContent (cleanReply raw) text := by
    rw [processText_okFirst cfg tr text r hg hk h0 hok]
    unfold handleBody
    rw [if_pos hj, hc]
  refine ⟨?_, ?_, ?_, ?_⟩
  · intro hnm
    rw [hpt]
    unfold parseContent
    rw [if_pos hnm]
  · intro e hnm he
    rw [hpt]
    unfold parseContent
    rw [if_neg hnm, he]
  · intro hnm he hl
    rw [hpt]
    unfold parseContent
    rw [if_neg hnm, he]
    simp only [if_pos hl]
  · intro hnm he hl
    rw [hpt]
    unfold parseContent
    rw [if_neg hnm, he]
    simp only [if_neg (by omega : ¬ 50 < (cleanReply raw).data.length)]

/-- C4 amended, witness: the reply `"ANSWER:  Franz Kafka"` wrapped in
quotes parses to the entity `"Franz Kafka"`. -/
theorem quibble_c4_amended_witness :
    (processText cfgK (replyTr "\"ANSWER:  Franz Kafka \"") clueText).1
      = some (mkMatchResult clueText "Franz Kafka") :=
  (quibble_c4_amended cfgK (replyTr "\"ANSWER:  Franz Kafka \"") clueText
      "\"ANSWER:  Franz Kafka \"" (okReply "\"ANSWER:  Franz Kafka \"")
      (by decide) (by decide) rfl rfl rfl rfl).2.1 ("Franz Kafka".data)
    (by decide) (by decide)

/-- C5: the classifier boundary never surfaces a transport failure as a
result: with an empty API key `processText` returns `null` having issued
no request; when every response of the transport is non-`ok` (covering
thrown network errors, which appear as absent responses, and non-2xx
statuses) the result is `null`; and when every response has an
unparseable body the result is `null`. -/
theorem quibble_c5 (cfg : Config) (tr : Transport) (text : String) :
    (cfg.apiKey = "" → processText cfg tr text = (none, []))
    ∧ ((∀ n r, tr n = some r → r.ok = false) → (processText cfg tr text).1 = none)
    ∧ ((∀ n r, tr n = some r → r.jsonOk = false) → (processText cfg tr text).1 = none) := by
  refine ⟨?_, ?_, ?_⟩
  · intro hk
    unfold processText
    split
    · rfl
    · rfl
  · intro H
    cases hres : (processText cfg tr text).1 with
    | none => rfl
    | some m =>
      obtain ⟨r, h0, hok, _⟩ := processText_some_ex cfg tr text m hres
      rcases h0 with h0 | h0 <;> rw [H _ _ h0] at hok <;> exact absurd hok (by simp)
  · intro H
    cases hres : (processText cfg tr text).1 with
    | none => rfl
    | some m =>
      obtain ⟨r, h0, _, hb⟩ := processText_some_ex cfg tr text m hres
      have hj := handleBody_some_jsonOk _ _ _ hb
      rcases h0 with h0 | h0 <;> rw [H _ _ h0] at hj <;> exact absurd hj (by simp)

/-- C5, witness: with an empty API key and a transport that always
throws, `processText` on the scenario clue returns `null` with no
request issued. -/
theorem quibble_c5_witness :
    processText ⟨"", "gpt-5.2-chat-latest"⟩ failTr clueText = (none, []) :=
  (quibble_c5 ⟨"", "gpt-5.2-chat-latest"⟩ failTr clueText).1 rfl

/-- C6: each `processText` call issues at most two outbound requests;
when two were issued the second is the single retry, using either the
alternate token-parameter name or the fallback model identifier; and
whenever a retry was performed (two requests issued) and its response was
non-`ok`, the result is `null`. -/
theorem quibble_c6 (cfg : Config) (tr : Transport) (text : String) :
    (processText cfg tr text).2.length ≤ 2
    ∧ ((processText cfg tr text).2.length = 2 →
        ∃ r0, tr 0 = some r0 ∧ r0.ok = false ∧
          ((processText cfg tr text).2
              = [firstRequest cfg, ⟨cfg.model, retryTokenParam r0⟩]
           ∨ (processText cfg tr text).2
              = [firstRequest cfg, ⟨"gpt-5.2", "max_completion_tokens"⟩]))
    ∧ (∀ r1, tr 1 = some r1 → r1.ok = false →
        (processText cfg tr text).2.length = 2 → (processText cfg tr text).1 = none) := by
  have hc := processText_cases cfg tr text
  refine ⟨?_, ?_, ?_⟩
  · rcases hc with h | ⟨x, h⟩ | ⟨r0, _, _, h | h⟩ <;> rw [h]
    · simp
    · simp
    · rw [retryStep_snd]; simp
    · rw [retryStep_snd]; simp
  · intro hlen
    rcases hc with h | ⟨x, h⟩ | ⟨r0, h0, hok0, h | h⟩
    · rw [h] at hlen; simp at hlen
    · rw [h] at hlen; simp at hlen
    · exact ⟨r0, h0, hok0, Or.inl (by rw [h, retryStep_snd])⟩
    · exact ⟨r0, h0, hok0, Or.inr (by rw [h, retryStep_snd])⟩
  · intro r1 h1 hok hlen
    rcases hc with h | ⟨x, h⟩ | ⟨r0, h0, hok0, h | h⟩
    · rw [h]
    · rw [h] at hlen; simp at hlen
    · rw [h]
      exact retryStep_fail tr text _ _ r1 h1 hok
    · rw [h]
      exact retryStep_fail tr text _ _ r1 h1 hok

/-- C6, witness: a 400 response complaining about the token parameter
triggers the single retry; with the retry failing the same way, exactly
two requests are issued and the result is `null`. -/
theorem quibble_c6_witness :
    badTokenResp.ok = false
    ∧ (processText cfgK badTokenTr clueText).2.length = 2
    ∧ (processText cfgK badTokenTr clueText).1 = none :=
  ⟨rfl, by decide, (quibble_c6 cfgK badTokenTr clueText).2.2 badTokenResp rfl rfl (by decide)⟩

/-- C7: an input whose trimmed length is below 10 characters is never
dispatched: `processText` returns `null` having issued no outbound
request, for every configuration and transport. -/
theorem quibble_c7 (cfg : Config) (tr : Transport) (text : String)
    (h : (sTrim text).data.length < 10) : processText cfg tr text = (none, []) :=
  processText_of_short cfg tr text h

/-- C7, witness: the accumulated text `"Short."` (6 trimmed characters)
yields `null` with no request, even under a transport that would answer. -/
theorem quibble_c7_witness :
    (sTrim "Short.").data.length < 10
    ∧ processText cfgK (replyTr "ANSWER: Paris") "Short." = (none, []) :=
  ⟨by decide, quibble_c7 cfgK (replyTr "ANSWER: Paris") "Short." (by decide)⟩

/-- C8 counterexample: the empty cleaned reply satisfies every condition
of the claim (no `ANSWER:` tag, no `NO MATCH` substring, length at most
50), yet `processText` returns `null` for it: the `!contentText` check at
QuizEngine.ts line 153 rejects the empty reply before the short-reply
fallback is reached. -/
theorem quibble_c8_counterexample :
    cleanReply "" = ""
    ∧ findAnswerEntity ("".data) = none
    ∧ containsSub ("".data) ("NO MATCH".data) = false
    ∧ ("".data).length ≤ 50
    ∧ (processText cfgK (replyTr "") clueText).1 = none := by
  decide

/-- C8 amended: a nonempty cleaned reply with no `ANSWER:` tag, not
containing the substring `NO MATCH`, of length at most 50, is returned
whole as the answer entity of a non-`null` result. -/
theorem quibble_c8_amended (cfg : Config) (tr : Transport) (text raw : String) (r : HttpResp)
    (hg : ¬(text = "" ∨ (sTrim text).data.length < 10)) (hk : ¬(cfg.apiKey = ""))
    (h0 : tr 0 = some r) (hok : r.ok = true) (hj : r.jsonOk = true)
    (hc : r.content = some raw)
    (hne : ¬(cleanReply raw = ""))
    (hnm : containsSub (cleanReply raw).data ("NO MATCH".data) = false)
    (htag : findAnswerEntity (cleanReply raw).data = none)
    (hlen : (cleanReply raw).data.length ≤ 50) :
    (processText cfg tr text).1 = some (mkMatchResult text (cleanReply raw)) := by
  have hpt : (processText cfg tr text).1 = parseContent (cleanReply raw) text := by
    rw [processText_okFirst cfg tr text r hg hk h0 hok]
    unfold handleBody
    rw [if_pos hj, hc]
  rw [hpt]
  unfold parseContent
  rw [if_neg (by simp [hne, hnm]), htag]
  simp only [if_neg (by omega : ¬ 50 < (cleanReply raw).data.length)]

/-- C8 amended, witness: the tagless 5-character reply `"Paris"` becomes
the answer entity itself. -/
theorem quibble_c8_amended_witness :
    (processText cfgK (replyTr "Paris") clueText).1
      = some (mkMatchResult clueText "Paris") :=
  quibble_c8_amended cfgK (replyTr "Paris") clueText "Paris" (okReply "Paris")
    (by decide) (by decide) rfl rfl rfl rfl (by decide) (by decide) (by decide) (by decide)

/-- C9 counterexample: a non-final segment does not only affect the
dispatch decision and `lastProcessedLength`: when it ends a sentence and
the engine matches, `lastAnswerId` is updated too (src/index.ts lines
179-199 run on non-final dispatches as well) — while the accumulated
transcript indeed stays untouched. -/
theorem quibble_c9_counterexample :
    (handleTranscription false engineParis initState
        "This author wrote Hamlet. And" false).state.lastAnswerId = some "Paris"
    ∧ initState.lastAnswerId = none
    ∧ (handleTranscription false engineParis initState
        "This author wrote Hamlet. And" false).state.accumulatedTranscript
        = initState.accumulatedTranscript := by
  decide

/-- C9 amended: `handleTranscription` never modifies
`accumulatedTranscript` unless the segment is final with non-blank text:
with `isFinal = false`, or with blank text, the accumulated transcript is
returned unchanged (non-final segments may still update
`lastProcessedLength`, `lastAnswerId` and the display). -/
theorem quibble_c9_amended (showLive : Bool) (engine : String → Option MatchResult)
    (st : SessionState) (text : String) (isFinal : Bool)
    (h : isFinal = false ∨ sTrim text = "") :
    (handleTranscription showLive engine st text isFinal).state.accumulatedTranscript
      = st.accumulatedTranscript := by
  have hcom : (isFinal && decide (sTrim text ≠ "")) = false := by
    rcases h with h | h
    · simp [h]
    · simp [h]
  unfold handleTranscription
  simp only [hcom, Bool.false_and, Bool.false_eq_true, if_false]
  rw [apply_ite (fun r : HandleResult => r.state.accumulatedTranscript)]
  rw [skipResult_acc, dispatchResult_acc, ite_self]

/-- C9 amended, witness: a non-final segment leaves the fresh session's
accumulated transcript empty. -/
theorem quibble_c9_amended_witness :
    (handleTranscription true engineNone initState "hello there" false).state.accumulatedTranscript
      = initState.accumulatedTranscript :=
  quibble_c9_amended true engineNone initState "hello there" false (Or.inl rfl)

/-- C10: every non-`null` result of `processText` carries the constant
confidence 10, the fixed question id `"openai-generated"`, the input text
as question text, and an empty keyword list. -/
theorem quibble_c10 (cfg : Config) (tr : Transport) (text : String) (m : MatchResult)
    (h : (processText cfg tr text).1 = some m) :
    m.confidence = 10 ∧ m.question.id = "openai-generated"
      ∧ m.question.text = text ∧ m.question.keywords = [] := by
  obtain ⟨r, _, _, hb⟩ := processText_some_ex cfg tr text m h
  obtain ⟨a, rfl⟩ := handleBody_some_shape r text m hb
  exact ⟨rfl, rfl, rfl, rfl⟩

/-- C10, witness: the parsed result for the reply `"ANSWER: Paris"` has
the four constant fields. -/
theorem quibble_c10_witness :
    (mkMatchResult clueText "Paris").confidence = 10
    ∧ (mkMatchResult clueText "Paris").question.id = "openai-generated"
    ∧ (mkMatchResult clueText "Paris").question.text = clueText
    ∧ (mkMatchResult clueText "Paris").question.keywords = [] :=
  quibble_c10 cfgK (replyTr "ANSWER: Paris") clueText (mkMatchResult clueText "Paris")
    (by decide)
